import Mathlib

/-!
Verification development for the ManAudio-API authentication subsystem.

The repository ships its configuration (src/config.py) and its test suite
(src/tests/test_auth.py); the application package (app.auth.decorators,
app.auth.errors, app.models, the route handlers and the token codec) is not
part of the sources available here, so those components are modelled from the
specification, faithful to its words, and checked against the behaviour the
test suite pins down. Header values and token strings are embedded as lists
of characters; machine state is passed explicitly.
-/

/-- Taxonomy of authentication failures, one constructor per outcome named in
the specification (section 4.3). -/
inductive AuthErr where
  | missingHeader
  | malformedHeader
  | missingToken
  | blacklisted
  | expired
  | invalidToken
deriving DecidableEq

/-- Modelled from the spec: the human-readable message carried by each
authentication failure, as fixed by sections 4.3 and 7 and by the messages the
test suite asserts. The invalidToken message is not pinned by any test. -/
def AuthErr.message : AuthErr → String
  | .missingHeader => "Authorization header is expected."
  | .malformedHeader => "Authorization header must start with \"Bearer\"."
  | .missingToken => "Token not found."
  | .blacklisted => "Token blacklisted. Please log in again."
  | .expired => "Signature expired, Please login again."
  | .invalidToken => "Invalid token."

/-- Modelled from the spec: all auth failures surface as HTTP 401
(section 7). -/
def AuthErr.status : AuthErr → Nat := fun _ => 401

/-- The literal scheme word of the Bearer convention, as a character list. -/
def bearer : List Char := ['B', 'e', 'a', 'r', 'e', 'r']

/-- Modelled from the spec: get_token_auth_header of app.auth.decorators,
which is absent from the available sources. Evaluation order per section 4.3:
an absent header fails missingHeader; a header that does not start with the
literal word Bearer fails malformedHeader; a header with no token part after
the scheme word and the separating spaces fails missingToken; otherwise the
token part is returned. -/
def get_token_auth_header (auth : Option (List Char)) : Except AuthErr (List Char) :=
  match auth with
  | none => Except.error AuthErr.missingHeader
  | some h =>
    if h.take bearer.length = bearer then
      let tok := (h.drop bearer.length).dropWhile (fun c => c = ' ')
      if tok = [] then Except.error AuthErr.missingToken else Except.ok tok
    else Except.error AuthErr.malformedHeader

/-- Modelled from the spec: the token codec's encode (section 4.1). A token
is a signed, self-contained value carrying the subject and the expiry
instant, here rendered as a character list: the subject in unary, a dot, the
expiry instant (issued_at plus the configured lifetime) in unary, a dot, and
the signature, modelled as the server secret itself. Deterministic and
side-effect free. -/
def encode (uid iat lifetime : Nat) (secret : List Char) : List Char :=
  List.replicate uid '1' ++ '.' :: (List.replicate (iat + lifetime) '1' ++ '.' :: secret)

/-- Modelled from the spec: the token codec's decode (section 4.1). Verifies
the signature against the server secret and the expiry against the current
time: a structurally malformed token or a signature mismatch fails
invalidToken; a token whose expiry instant lies strictly before the current
time fails expired; otherwise the subject is returned. -/
def decode (tok secret : List Char) (now : Nat) : Except AuthErr Nat :=
  let subPart := tok.takeWhile (fun c => c = '1')
  match tok.dropWhile (fun c => c = '1') with
  | '.' :: rest =>
    match rest.dropWhile (fun c => c = '1') with
    | '.' :: sig =>
      if sig = secret then
        if (rest.takeWhile (fun c => c = '1')).length < now then
          Except.error AuthErr.expired
        else Except.ok subPart.length
      else Except.error AuthErr.invalidToken
    | _ => Except.error AuthErr.invalidToken
  | _ => Except.error AuthErr.invalidToken

namespace Blacklist

/-- Modelled from the spec: Blacklist Store.add records a token string as
revoked (section 4.2); the store is the list of recorded token strings. -/
def add (bl : List (List Char)) (t : List Char) : List (List Char) :=
  t :: bl

/-- Modelled from the spec: Blacklist Store.contains answers membership
queries over the recorded token strings (section 4.2). -/
def contains (bl : List (List Char)) (t : List Char) : Bool :=
  decide (t ∈ bl)

end Blacklist

/-- A user record: id, unique email, stored password credential and the admin
flag, per the data model of section 3. Password hashing is delegated to a
standard library and out of scope, so the credential check is modelled as
equality of the stored and the presented password. -/
structure User where
  id : Nat
  email : String
  password : String
  admin : Bool
deriving DecidableEq

/-- The server-side state the routes read and write: the user table, the
blacklist store and the id the next registered user receives. -/
structure AppState where
  users : List User
  blacklist : List (List Char)
  nextId : Nat
deriving DecidableEq

/-- A JSON response: HTTP status, the success flag, the message, the optional
auth_token and the optional data.email field of the status route. -/
structure Response where
  status : Nat
  success : Bool
  message : String
  authToken : Option (List Char)
  dataEmail : Option String
deriving DecidableEq

/-- The response body of an authentication failure: the failure's status,
success false and the failure's message. -/
def errResponse (e : AuthErr) : Response :=
  Response.mk e.status false e.message none none

/-- Modelled from the spec: the auth decision logic of section 4.3. The
header is parsed; the extracted token is looked up in the blacklist store
before any signature or expiry validation; only a non-blacklisted token is
decoded. -/
def authDecision (header : Option (List Char)) (bl : List (List Char))
    (secret : List Char) (now : Nat) : Except AuthErr Nat :=
  match get_token_auth_header header with
  | Except.error e => Except.error e
  | Except.ok tok =>
    if Blacklist.contains bl tok then Except.error AuthErr.blacklisted
    else decode tok secret now

/-- Modelled from the spec: the registration handler. An email already held
by a user yields 202 with no state change; otherwise a user is created and a
fresh token is issued (sections 4.3 and 6). -/
def register (σ : AppState) (email pw : String) (now lifetime : Nat)
    (secret : List Char) : Response × AppState :=
  if σ.users.any (fun u => u.email == email) then
    (Response.mk 202 false "User already exists. Please Log in." none none, σ)
  else
    (Response.mk 201 true "Successfully registered."
      (some (encode σ.nextId now lifetime secret)) none,
     AppState.mk (σ.users ++ [User.mk σ.nextId email pw false]) σ.blacklist (σ.nextId + 1))

/-- Modelled from the spec: the login handler. An unknown email yields 401, a
wrong password yields 401 with no token, a correct password yields 200 and a
fresh token (sections 4.3 and 6, messages per the test suite). -/
def login (σ : AppState) (email pw : String) (now lifetime : Nat)
    (secret : List Char) : Response :=
  match σ.users.find? (fun v => v.email == email) with
  | none => Response.mk 401 false "User does not exist." none none
  | some u =>
    if u.password == pw then
      Response.mk 200 true "Successfully logged in."
        (some (encode u.id now lifetime secret)) none
    else Response.mk 401 false "Wrong password." none none

/-- Modelled from the spec: the logout handler. On successful auth it inserts
the presented token into the blacklist store and responds success; any auth
failure is returned unchanged with no state change (section 4.3). -/
def logout (σ : AppState) (header : Option (List Char)) (secret : List Char)
    (now : Nat) : Response × AppState :=
  match get_token_auth_header header with
  | Except.error e => (errResponse e, σ)
  | Except.ok tok =>
    if Blacklist.contains σ.blacklist tok then (errResponse AuthErr.blacklisted, σ)
    else
      match decode tok secret now with
      | Except.error e => (errResponse e, σ)
      | Except.ok _ =>
        (Response.mk 200 true "Successfully logged out." none none,
         AppState.mk σ.users (Blacklist.add σ.blacklist tok) σ.nextId)

/-- Modelled from the spec: the sample protected route GET /auth/headers
(section 6). -/
def headersRoute (σ : AppState) (header : Option (List Char)) (secret : List Char)
    (now : Nat) : Response :=
  match authDecision header σ.blacklist secret now with
  | Except.error e => errResponse e
  | Except.ok _ => Response.mk 200 true "Access Granted" none none

/-- Modelled from the spec: the status route GET /auth/status (section 6),
returning the authenticated user's email on success. -/
def statusRoute (σ : AppState) (header : Option (List Char)) (secret : List Char)
    (now : Nat) : Response :=
  match authDecision header σ.blacklist secret now with
  | Except.error e => errResponse e
  | Except.ok uid =>
    match σ.users.find? (fun u => u.id == uid) with
    | some u => Response.mk 200 true "" none (some u.email)
    | none => Response.mk 200 true "" none none

/-- A token codec call as a state transition, used to express that encoding
reads the arguments only and leaves the server state untouched. -/
def encodeCall (σ : AppState) (uid iat lifetime : Nat) (secret : List Char) :
    List Char × AppState :=
  (encode uid iat lifetime secret, σ)

/-- Embedded from src/config.py: Config.SECRET_KEY is
os.environ.get with the key SECRET_KEY and the hard-coded default string; the
process environment is a partial map from variable names to values. -/
def Config.SECRET_KEY (env : String → Option String) : String :=
  (env "SECRET_KEY").getD "anydfsfsafaga"

/-! Helper lemmas about the unary token rendering and the header parser. -/

theorem takeWhile_ones (u : Nat) (rest : List Char) :
    (List.replicate u '1' ++ '.' :: rest).takeWhile (fun c => c = '1')
      = List.replicate u '1' := by
  induction u with
  | zero => simp [List.takeWhile]
  | succ n ih => simp [List.replicate, List.takeWhile, ih]

theorem dropWhile_ones (u : Nat) (rest : List Char) :
    (List.replicate u '1' ++ '.' :: rest).dropWhile (fun c => c = '1')
      = '.' :: rest := by
  induction u with
  | zero => simp [List.dropWhile]
  | succ n ih => simp [List.replicate, List.dropWhile, ih]

/-- Decoding with the signing secret recovers the subject while the token is
within its lifetime and fails expired strictly after issued_at plus
lifetime. -/
theorem decode_encode (u iat lifetime : Nat) (secret : List Char) (now : Nat) :
    decode (encode u iat lifetime secret) secret now
      = if iat + lifetime < now then Except.error AuthErr.expired
        else Except.ok u := by
  simp [decode, encode, takeWhile_ones, dropWhile_ones]

/-- The header parser extracts the token part of a well-formed Bearer
header whose token does not itself begin with a space. -/
theorem get_token_bearer (c : Char) (t : List Char) (hc : c ≠ ' ') :
    get_token_auth_header (some (bearer ++ ' ' :: c :: t)) = Except.ok (c :: t) := by
  have h1 : List.take bearer.length (bearer ++ ' ' :: c :: t) = bearer :=
    List.take_left bearer (' ' :: c :: t)
  have h2 : List.drop bearer.length (bearer ++ ' ' :: c :: t) = ' ' :: c :: t :=
    List.drop_left bearer (' ' :: c :: t)
  simp [get_token_auth_header, h1, h2, List.dropWhile, hc]

/-- An encoded token never begins with a space and is nonempty, so a Bearer
header carrying it parses back to exactly this token. -/
theorem get_token_bearer_encode (u iat lifetime : Nat) (secret : List Char) :
    get_token_auth_header (some (bearer ++ ' ' :: encode u iat lifetime secret))
      = Except.ok (encode u iat lifetime secret) := by
  cases u with
  | zero =>
    have h : encode 0 iat lifetime secret
        = '.' :: (List.replicate (iat + lifetime) '1' ++ '.' :: secret) := by
      simp [encode]
    rw [h]
    exact get_token_bearer _ _ (by decide)
  | succ n =>
    have h : encode (n + 1) iat lifetime secret
        = '1' :: (List.replicate n '1' ++ '.'
            :: (List.replicate (iat + lifetime) '1' ++ '.' :: secret)) := by
      simp [encode, List.replicate]
    rw [h]
    exact get_token_bearer _ _ (by decide)

/-- C4: the header-parsing stage evaluates in order: an absent Authorization
header fails MissingHeader with its message; a header that does not start
with the literal word Bearer fails MalformedHeader with its message; the
header that is exactly Bearer with no token part fails MissingToken with its
message; each failure carries status 401. -/
theorem spec_C4 (h : List Char) (hmal : ¬ bearer <+: h) :
    get_token_auth_header none = Except.error AuthErr.missingHeader
    ∧ AuthErr.missingHeader.message = "Authorization header is expected."
    ∧ get_token_auth_header (some h) = Except.error AuthErr.malformedHeader
    ∧ AuthErr.malformedHeader.message
        = "Authorization header must start with \"Bearer\"."
    ∧ get_token_auth_header (some bearer) = Except.error AuthErr.missingToken
    ∧ AuthErr.missingToken.message = "Token not found."
    ∧ AuthErr.missingHeader.status = 401
    ∧ AuthErr.malformedHeader.status = 401
    ∧ AuthErr.missingToken.status = 401 := by
  have htake : ¬ (h.take bearer.length = bearer) := by
    intro he
    exact hmal (List.prefix_iff_eq_take.mpr he.symm)
  refine ⟨rfl, rfl, ?_, rfl, rfl, rfl, rfl, rfl, rfl⟩
  simp [get_token_auth_header, htake]

/-- Witness for C4 at the concrete non-Bearer header consisting of the single
letter x. -/
theorem spec_C4_witness :
    ¬ bearer <+: ['x']
    ∧ (get_token_auth_header none = Except.error AuthErr.missingHeader
       ∧ AuthErr.missingHeader.message = "Authorization header is expected."
       ∧ get_token_auth_header (some ['x']) = Except.error AuthErr.malformedHeader
       ∧ AuthErr.malformedHeader.message
           = "Authorization header must start with \"Bearer\"."
       ∧ get_token_auth_header (some bearer) = Except.error AuthErr.missingToken
       ∧ AuthErr.missingToken.message = "Token not found."
       ∧ AuthErr.missingHeader.status = 401
       ∧ AuthErr.malformedHeader.status = 401
       ∧ AuthErr.missingToken.status = 401) :=
  ⟨by decide, spec_C4 ['x'] (by decide)⟩

/-- C10: a present but empty Authorization header is classified as malformed,
not missing, with status 401 and the malformed-header message; and a header
of the exact form Bearer followed by a space and a token returns exactly that
token. -/
theorem spec_C10 (c : Char) (t : List Char) (hc : c ≠ ' ') :
    get_token_auth_header (some []) = Except.error AuthErr.malformedHeader
    ∧ AuthErr.malformedHeader.message
        = "Authorization header must start with \"Bearer\"."
    ∧ AuthErr.malformedHeader.status = 401
    ∧ get_token_auth_header (some (bearer ++ ' ' :: c :: t)) = Except.ok (c :: t) :=
  ⟨rfl, rfl, rfl, get_token_bearer c t hc⟩

/-- Witness for C10 at the one-character token a. -/
theorem spec_C10_witness :
    ('a' : Char) ≠ ' '
    ∧ (get_token_auth_header (some []) = Except.error AuthErr.malformedHeader
       ∧ AuthErr.malformedHeader.message
           = "Authorization header must start with \"Bearer\"."
       ∧ AuthErr.malformedHeader.status = 401
       ∧ get_token_auth_header (some (bearer ++ ' ' :: 'a' :: []))
           = Except.ok ('a' :: [])) :=
  ⟨by decide, spec_C10 'a' [] (by decide)⟩

/-- C9: Blacklist Store.add is idempotent in effect: adding a token twice
yields the same queryability as adding it once; after either, contains is
true at this token, and membership of every other token string is
unchanged. -/
theorem spec_C9 (bl : List (List Char)) (t q : List Char) (hq : q ≠ t) :
    Blacklist.contains (Blacklist.add (Blacklist.add bl t) t) q
        = Blacklist.contains (Blacklist.add bl t) q
    ∧ Blacklist.contains (Blacklist.add (Blacklist.add bl t) t) t
        = Blacklist.contains (Blacklist.add bl t) t
    ∧ Blacklist.contains (Blacklist.add bl t) t = true
    ∧ Blacklist.contains (Blacklist.add bl t) q = Blacklist.contains bl q := by
  refine ⟨?_, ?_, ?_, ?_⟩ <;> simp [Blacklist.contains, Blacklist.add, hq]

/-- Witness for C9 at the empty store with the tokens t and q. -/
theorem spec_C9_witness :
    (['q'] : List Char) ≠ ['t']
    ∧ (Blacklist.contains (Blacklist.add (Blacklist.add [] ['t']) ['t']) ['q']
           = Blacklist.contains (Blacklist.add [] ['t']) ['q']
       ∧ Blacklist.contains (Blacklist.add (Blacklist.add [] ['t']) ['t']) ['t']
           = Blacklist.contains (Blacklist.add [] ['t']) ['t']
       ∧ Blacklist.contains (Blacklist.add [] ['t']) ['t'] = true
       ∧ Blacklist.contains (Blacklist.add [] ['t']) ['q']
           = Blacklist.contains [] ['q']) :=
  ⟨by decide, spec_C9 [] ['t'] ['q'] (by decide)⟩

/-- C8: Token Codec encoding is deterministic and side-effect free: two
encode calls with identical user id, timestamp, lifetime and secret return
equal token strings from any two server states, and an encode call leaves the
server state unchanged. -/
theorem spec_C8 (σ₁ σ₂ : AppState) (uid iat lifetime : Nat) (secret : List Char) :
    (encodeCall σ₁ uid iat lifetime secret).1 = (encodeCall σ₂ uid iat lifetime secret).1
    ∧ (encodeCall σ₁ uid iat lifetime secret).2 = σ₁ :=
  ⟨rfl, rfl⟩

/-- C7 counterexample: it is not the case that in every process environment
the effective SECRET_KEY is a value taken from the environment; the
environment that leaves the variable unset refutes it, because Config falls
back to the hard-coded default. -/
theorem spec_C7_counterexample :
    ¬ ∀ env : String → Option String,
        ∃ v, env "SECRET_KEY" = some v ∧ Config.SECRET_KEY env = v := by
  intro hall
  obtain ⟨v, hv, _⟩ := hall (fun _ => none)
  exact Option.noConfusion hv

/-- C7 amended: the Config class reads SECRET_KEY from the SECRET_KEY
environment variable when it is set; when the variable is unset the effective
SECRET_KEY is the hard-coded default string anydfsfsafaga. -/
theorem spec_C7 (env env2 : String → Option String) (v : String)
    (hv : env "SECRET_KEY" = some v) (h2 : env2 "SECRET_KEY" = none) :
    Config.SECRET_KEY env = v ∧ Config.SECRET_KEY env2 = "anydfsfsafaga" := by
  constructor
  · simp [Config.SECRET_KEY, hv]
  · simp [Config.SECRET_KEY, h2]

/-- Witness for C7 at an environment binding SECRET_KEY to k and an
environment binding nothing. -/
theorem spec_C7_witness :
    (fun _ : String => some "k") "SECRET_KEY" = some "k"
    ∧ (fun _ : String => (none : Option String)) "SECRET_KEY" = none
    ∧ (Config.SECRET_KEY (fun _ => some "k") = "k"
       ∧ Config.SECRET_KEY (fun _ => none) = "anydfsfsafaga") :=
  ⟨rfl, rfl, spec_C7 (fun _ => some "k") (fun _ => none) "k" rfl rfl⟩

/-- C1: once a token string is in the blacklist store, every auth decision
presenting that exact token string fails blacklisted with status 401 and the
blacklist message, on the status route, the headers route and the logout
route alike, at every time and hence regardless of expiry, and with no
constraint on the token decoding at all: the blacklist is consulted before
any signature or expiry validation. -/
theorem spec_C1 (σ : AppState) (header : Option (List Char)) (tok secret : List Char)
    (now : Nat)
    (hhdr : get_token_auth_header header = Except.ok tok)
    (hbl : tok ∈ σ.blacklist) :
    statusRoute σ header secret now = errResponse AuthErr.blacklisted
    ∧ headersRoute σ header secret now = errResponse AuthErr.blacklisted
    ∧ (logout σ header secret now).1 = errResponse AuthErr.blacklisted
    ∧ (logout σ header secret now).2 = σ
    ∧ AuthErr.blacklisted.message = "Token blacklisted. Please log in again."
    ∧ AuthErr.blacklisted.status = 401 := by
  have hc : Blacklist.contains σ.blacklist tok = true := by
    simp [Blacklist.contains, hbl]
  refine ⟨?_, ?_, ?_, ?_, rfl, rfl⟩ <;>
    simp [statusRoute, headersRoute, logout, authDecision, hhdr, hc]

/-- Witness for C1: the token a, blacklisted in an otherwise empty state, is
rejected as blacklisted by all three routes even though it would not even
decode. -/
theorem spec_C1_witness :
    get_token_auth_header (some ['B', 'e', 'a', 'r', 'e', 'r', ' ', 'a'])
        = Except.ok ['a']
    ∧ ['a'] ∈ (AppState.mk [] [['a']] 0).blacklist
    ∧ (statusRoute (AppState.mk [] [['a']] 0)
           (some ['B', 'e', 'a', 'r', 'e', 'r', ' ', 'a']) ['k'] 0
           = errResponse AuthErr.blacklisted
       ∧ headersRoute (AppState.mk [] [['a']] 0)
           (some ['B', 'e', 'a', 'r', 'e', 'r', ' ', 'a']) ['k'] 0
           = errResponse AuthErr.blacklisted
       ∧ (logout (AppState.mk [] [['a']] 0)
           (some ['B', 'e', 'a', 'r', 'e', 'r', ' ', 'a']) ['k'] 0).1
           = errResponse AuthErr.blacklisted
       ∧ (logout (AppState.mk [] [['a']] 0)
           (some ['B', 'e', 'a', 'r', 'e', 'r', ' ', 'a']) ['k'] 0).2
           = AppState.mk [] [['a']] 0
       ∧ AuthErr.blacklisted.message = "Token blacklisted. Please log in again."
       ∧ AuthErr.blacklisted.status = 401) :=
  ⟨rfl, by simp, spec_C1 (AppState.mk [] [['a']] 0)
    (some ['B', 'e', 'a', 'r', 'e', 'r', ' ', 'a']) ['a'] ['k'] 0 rfl (by simp)⟩

/-- C2: a token issued at iat with lifetime L decodes to its subject
immediately after issue; at any time strictly greater than iat plus L it
fails expired, and on the protected headers route this surfaces as status 401
with the expiry message. -/
theorem spec_C2 (σ : AppState) (u iat lifetime : Nat) (secret : List Char) (now : Nat)
    (hnow : iat + lifetime < now)
    (hbl : encode u iat lifetime secret ∉ σ.blacklist) :
    decode (encode u iat lifetime secret) secret iat = Except.ok u
    ∧ decode (encode u iat lifetime secret) secret now = Except.error AuthErr.expired
    ∧ headersRoute σ (some (bearer ++ ' ' :: encode u iat lifetime secret)) secret now
        = errResponse AuthErr.expired
    ∧ AuthErr.expired.status = 401
    ∧ AuthErr.expired.message = "Signature expired, Please login again." := by
  refine ⟨?_, ?_, ?_, rfl, rfl⟩
  · rw [decode_encode, if_neg]
    exact Nat.not_lt.mpr (Nat.le_add_right iat lifetime)
  · rw [decode_encode, if_pos hnow]
  · simp [headersRoute, authDecision, get_token_bearer_encode, Blacklist.contains,
      hbl, decode_encode, hnow]

/-- Witness for C2: a token for user 1 issued at time 0 with lifetime 5,
decoded at time 6 and presented to the headers route at time 6. -/
theorem spec_C2_witness :
    0 + 5 < 6
    ∧ encode 1 0 5 ['k'] ∉ (AppState.mk [] [] 0).blacklist
    ∧ (decode (encode 1 0 5 ['k']) ['k'] 0 = Except.ok 1
       ∧ decode (encode 1 0 5 ['k']) ['k'] 6 = Except.error AuthErr.expired
       ∧ headersRoute (AppState.mk [] [] 0)
           (some (bearer ++ ' ' :: encode 1 0 5 ['k'])) ['k'] 6
           = errResponse AuthErr.expired
       ∧ AuthErr.expired.status = 401
       ∧ AuthErr.expired.message = "Signature expired, Please login again.") :=
  ⟨by decide, by simp,
   spec_C2 (AppState.mk [] [] 0) 1 0 5 ['k'] 6 (by decide) (by simp)⟩

/-- C3: a logout request whose bearer token passes the auth decision, being
neither blacklisted nor expired and carrying a valid signature, inserts that
exact token string into the blacklist store and responds 200 with the logout
message; afterwards the store contains the token. -/
theorem spec_C3 (σ : AppState) (header : Option (List Char)) (tok secret : List Char)
    (uid now : Nat)
    (hhdr : get_token_auth_header header = Except.ok tok)
    (hbl : tok ∉ σ.blacklist)
    (hdec : decode tok secret now = Except.ok uid) :
    logout σ header secret now
      = (Response.mk 200 true "Successfully logged out." none none,
         AppState.mk σ.users (Blacklist.add σ.blacklist tok) σ.nextId)
    ∧ Blacklist.contains (logout σ header secret now).2.blacklist tok = true := by
  have hc : Blacklist.contains σ.blacklist tok = false := by
    simp [Blacklist.contains, hbl]
  have hmain : logout σ header secret now
      = (Response.mk 200 true "Successfully logged out." none none,
         AppState.mk σ.users (Blacklist.add σ.blacklist tok) σ.nextId) := by
    simp [logout, hhdr, hc, hdec]
  refine ⟨hmain, ?_⟩
  rw [hmain]
  simp [Blacklist.contains, Blacklist.add]

/-- Witness for C3: a fresh token for user 0, issued at time 0 with lifetime
5 and presented at time 3, is blacklisted by logout and the call answers
200. -/
theorem spec_C3_witness :
    get_token_auth_header
        (some ['B', 'e', 'a', 'r', 'e', 'r', ' ', '.', '1', '1', '1', '1', '1', '.', 'k'])
        = Except.ok ['.', '1', '1', '1', '1', '1', '.', 'k']
    ∧ ['.', '1', '1', '1', '1', '1', '.', 'k'] ∉ (AppState.mk [] [] 0).blacklist
    ∧ decode ['.', '1', '1', '1', '1', '1', '.', 'k'] ['k'] 3 = Except.ok 0
    ∧ (logout (AppState.mk [] [] 0)
        (some ['B', 'e', 'a', 'r', 'e', 'r', ' ', '.', '1', '1', '1', '1', '1', '.', 'k'])
        ['k'] 3
        = (Response.mk 200 true "Successfully logged out." none none,
           AppState.mk []
             (Blacklist.add [] ['.', '1', '1', '1', '1', '1', '.', 'k']) 0)
       ∧ Blacklist.contains
           (logout (AppState.mk [] [] 0)
             (some ['B', 'e', 'a', 'r', 'e', 'r', ' ', '.', '1', '1', '1', '1', '1', '.', 'k'])
             ['k'] 3).2.blacklist
           ['.', '1', '1', '1', '1', '1', '.', 'k'] = true) :=
  ⟨rfl, by simp, rfl,
   spec_C3 (AppState.mk [] [] 0)
     (some ['B', 'e', 'a', 'r', 'e', 'r', ' ', '.', '1', '1', '1', '1', '1', '.', 'k'])
     ['.', '1', '1', '1', '1', '1', '.', 'k'] ['k'] 0 3 rfl (by simp) rfl⟩

/-- C5: registering an email held by no user answers 201 with success, the
registration message and an auth_token; registering the same email again
answers 202, not 409, with success false and the already-exists message, and
leaves the state, in particular the user table, unchanged. -/
theorem spec_C5 (σ : AppState) (email pw pw2 : String) (now now2 lifetime : Nat)
    (secret : List Char)
    (hfresh : ∀ u ∈ σ.users, u.email ≠ email) :
    (register σ email pw now lifetime secret).1.status = 201
    ∧ (register σ email pw now lifetime secret).1.success = true
    ∧ (register σ email pw now lifetime secret).1.message = "Successfully registered."
    ∧ (register σ email pw now lifetime secret).1.authToken
        = some (encode σ.nextId now lifetime secret)
    ∧ (register (register σ email pw now lifetime secret).2
        email pw2 now2 lifetime secret).1.status = 202
    ∧ (register (register σ email pw now lifetime secret).2
        email pw2 now2 lifetime secret).1.success = false
    ∧ (register (register σ email pw now lifetime secret).2
        email pw2 now2 lifetime secret).1.message = "User already exists. Please Log in."
    ∧ (register (register σ email pw now lifetime secret).2
        email pw2 now2 lifetime secret).2 = (register σ email pw now lifetime secret).2 := by
  have hany : σ.users.any (fun u => u.email == email) = false := by
    rw [List.any_eq_false]
    intro u hu
    simpa using hfresh u hu
  refine ⟨?_, ?_, ?_, ?_, ?_, ?_, ?_, ?_⟩ <;> simp [register, hany]

/-- Witness for C5: registering joe at gmail twice starting from the empty
state. -/
theorem spec_C5_witness :
    (∀ u ∈ (AppState.mk [] [] 0).users, u.email ≠ "joe@gmail.com")
    ∧ ((register (AppState.mk [] [] 0) "joe@gmail.com" "123456" 0 5 ['k']).1.status = 201
       ∧ (register (AppState.mk [] [] 0) "joe@gmail.com" "123456" 0 5 ['k']).1.success = true
       ∧ (register (AppState.mk [] [] 0) "joe@gmail.com" "123456" 0 5 ['k']).1.message
           = "Successfully registered."
       ∧ (register (AppState.mk [] [] 0) "joe@gmail.com" "123456" 0 5 ['k']).1.authToken
           = some (encode 0 0 5 ['k'])
       ∧ (register (register (AppState.mk [] [] 0) "joe@gmail.com" "123456" 0 5 ['k']).2
           "joe@gmail.com" "123456" 1 5 ['k']).1.status = 202
       ∧ (register (register (AppState.mk [] [] 0) "joe@gmail.com" "123456" 0 5 ['k']).2
           "joe@gmail.com" "123456" 1 5 ['k']).1.success = false
       ∧ (register (register (AppState.mk [] [] 0) "joe@gmail.com" "123456" 0 5 ['k']).2
           "joe@gmail.com" "123456" 1 5 ['k']).1.message
           = "User already exists. Please Log in."
       ∧ (register (register (AppState.mk [] [] 0) "joe@gmail.com" "123456" 0 5 ['k']).2
           "joe@gmail.com" "123456" 1 5 ['k']).2
           = (register (AppState.mk [] [] 0) "joe@gmail.com" "123456" 0 5 ['k']).2) :=
  ⟨by simp,
   spec_C5 (AppState.mk [] [] 0) "joe@gmail.com" "123456" "123456" 0 1 5 ['k']
     (by simp)⟩

/-- C6: for a registered user found by email, logging in with the stored
password answers 200 with success and an auth_token that decodes back to the
user's id; logging in with a wrong password answers 401 with the
wrong-password message and no auth_token; logging in with an email no user
holds answers 401 with no auth_token. -/
theorem spec_C6 (σ : AppState) (email e2 pwBad : String) (u : User)
    (now lifetime : Nat) (secret : List Char)
    (hfind : σ.users.find? (fun v => v.email == email) = some u)
    (hbad : pwBad ≠ u.password)
    (hnone : σ.users.find? (fun v => v.email == e2) = none) :
    login σ email u.password now lifetime secret
        = Response.mk 200 true "Successfully logged in."
            (some (encode u.id now lifetime secret)) none
    ∧ decode (encode u.id now lifetime secret) secret now = Except.ok u.id
    ∧ login σ email pwBad now lifetime secret
        = Response.mk 401 false "Wrong password." none none
    ∧ login σ e2 pwBad now lifetime secret
        = Response.mk 401 false "User does not exist." none none := by
  refine ⟨?_, ?_, ?_, ?_⟩
  · simp [login, hfind]
  · rw [decode_encode, if_neg]
    exact Nat.not_lt.mpr (Nat.le_add_right now lifetime)
  · simp [login, hfind, Ne.symm hbad]
  · simp [login, hnone]

/-- Witness for C6: the single registered user joe at gmail with password
123456, the wrong password testo and the unregistered email nobody. -/
theorem spec_C6_witness :
    (AppState.mk [User.mk 0 "joe@gmail.com" "123456" false] [] 1).users.find?
        (fun v => v.email == "joe@gmail.com")
        = some (User.mk 0 "joe@gmail.com" "123456" false)
    ∧ "testo" ≠ (User.mk 0 "joe@gmail.com" "123456" false).password
    ∧ (AppState.mk [User.mk 0 "joe@gmail.com" "123456" false] [] 1).users.find?
        (fun v => v.email == "nobody")
        = none
    ∧ (login (AppState.mk [User.mk 0 "joe@gmail.com" "123456" false] [] 1)
          "joe@gmail.com" (User.mk 0 "joe@gmail.com" "123456" false).password 0 5 ['k']
          = Response.mk 200 true "Successfully logged in."
              (some (encode (User.mk 0 "joe@gmail.com" "123456" false).id 0 5 ['k'])) none
       ∧ decode (encode (User.mk 0 "joe@gmail.com" "123456" false).id 0 5 ['k']) ['k'] 0
           = Except.ok (User.mk 0 "joe@gmail.com" "123456" false).id
       ∧ login (AppState.mk [User.mk 0 "joe@gmail.com" "123456" false] [] 1)
           "joe@gmail.com" "testo" 0 5 ['k']
           = Response.mk 401 false "Wrong password." none none
       ∧ login (AppState.mk [User.mk 0 "joe@gmail.com" "123456" false] [] 1)
           "nobody" "testo" 0 5 ['k']
           = Response.mk 401 false "User does not exist." none none) :=
  ⟨by decide, by decide, by decide,
   spec_C6 (AppState.mk [User.mk 0 "joe@gmail.com" "123456" false] [] 1)
     "joe@gmail.com" "nobody" "testo" (User.mk 0 "joe@gmail.com" "123456" false)
     0 5 ['k'] (by decide) (by decide) (by decide)⟩
